import Mathlib

/-!
Verification of the three smoke-test programs of the coral-machine repository:
the parallel-algorithms test (gpu_validation/tests/stdpar_test.cpp), the
lattice-Boltzmann test (gpu_validation/tests/palabos_minimal.cpp) and the
dependency-check printer (test-project/main.cpp).

Numeric values that the C++ code holds in `float` are modelled as exact
rationals (`ℚ`): the only floating-point rounding in the programs occurs
inside the parallel reduction, which the specification explicitly covers by
the phrase "within floating-point tolerance", so exact arithmetic is the
reference semantics.  External library calls (Palabos) are modelled as an
event trace: the program under `src/` only decides which calls happen, in
which order and with which arguments.
-/

namespace CoralMachine

/-! ### Embedding of gpu_validation/tests/stdpar_test.cpp -/

namespace Stdpar

/-- `constexpr std::size_t kSize = 100'000'000;` -/
def kSize : Nat := 100000000

/-- `std::vector<float> data(kSize, 1.0f);` — the buffer right after
construction: `kSize` elements, each `1.0`. -/
def initialData : List ℚ := List.replicate kSize 1

/-- The lambda `[](float x) { return x * 2.0f; }` passed to the transform. -/
def doubleElem (x : ℚ) : ℚ := x * 2

/-- `std::transform(std::execution::par, data.begin(), data.end(),
data.begin(), doubleElem)`: an elementwise map written back into the same
buffer.  Whatever order the parallel policy chooses, each output element is
the lambda applied to the corresponding input element, which is exactly
`List.map`. -/
def transformPar (l : List ℚ) : List ℚ := l.map doubleElem

/-- `std::reduce(std::execution::par, first, last, init)`: a fold of `+`
over the range starting from `init`.  `std::reduce` reads the range through
input iterators and never writes to it. -/
def reducePar (init : ℚ) (l : List ℚ) : ℚ := l.foldl (· + ·) init

/-- The buffer after the transform step (the transform writes in place, so
this is also the buffer the reduce step reads). -/
def bufferAfterTransform : List ℚ := transformPar initialData

/-- The reduce step: returns the reduced value together with the buffer it
leaves behind.  `std::reduce` does not modify the range, so the buffer
component is the input buffer. -/
def reduceStep (buf : List ℚ) : ℚ × List ℚ := (reducePar 0 buf, buf)

/-- The sum computed by the program: `std::reduce(par, begin, end, 0.0f)`
over the doubled buffer. -/
def stdparSum : ℚ := (reduceStep bufferAfterTransform).1

/-- The buffer as it stands after the reduce call. -/
def bufferAfterReduce : List ℚ := (reduceStep bufferAfterTransform).2

/-- `return sum > 0.f ? 0 : 1;` as a function of the computed sum. -/
def stdparExitCode (sum : ℚ) : Nat := if 0 < sum then 0 else 1

/-- The exit code of the whole program on its (fixed) input. -/
def stdparMainExit : Nat := stdparExitCode stdparSum

end Stdpar

/-! ### Embedding of test-project/main.cpp -/

namespace TestProject

/-- The state of the build environment the printed lines talk about.  The
program text of `main` never inspects any of these fields (it performs no
checks), which the constancy theorems below make precise. -/
structure Environment where
  palabosLinkable : Bool
  geometryCentralLinkable : Bool
  cudaToolkitAvailable : Bool
  mpiConfigured : Bool

/-- The lines printed by `main`, in the order of the `std::cout`
statements of test-project/main.cpp. -/
def outputLines : List String :=
  [ "🧪 CoralMachine Dependency Test"
  , "✅ Palabos library available for linking"
  , "✅ Geometry Central library available for linking"
  , "✅ CUDA toolkit available"
  , "✅ C++20 compilation successful"
  , "🎉 Basic dependency test passed!"
  , "📝 Note: MPI and full Palabos headers need container-specific setup" ]

/-- `int main()` of test-project/main.cpp: prints the fixed lines and
returns 0.  It takes the environment as an argument only so that its
independence from the environment can be stated; the body ignores it, just
as the C++ body reads nothing. -/
def run (env : Environment) : List String × Nat := (outputLines, 0)

end TestProject

/-! ### Embedding of gpu_validation/tests/palabos_minimal.cpp -/

namespace Palabos

/-- `constexpr plint nx = 100;` -/
def nx : Int := 100

/-- `constexpr plint ny = 100;` -/
def ny : Int := 100

/-- `constexpr plint nz = 100;` -/
def nz : Int := 100

/-- `constexpr int iterations = 100;` -/
def iterations : Nat := 100

/-- `constexpr double omega = 1.0;` — relaxation parameter for the BGK
dynamics. -/
def omega : ℚ := 1

/-- The calls `main` makes into the external Palabos library, in order:
`plbInit(&argc, &argv)`, the `MultiBlockLattice3D` constructor with the
`AcceleratedBGKdynamics(omega)` model, `lattice.initialize()` (the warm-up,
event `warmUp`), and `lattice.collideAndStream()`. -/
inductive PlbEvent where
  | plbInit (args : List String)
  | constructLattice (nx ny nz : Int) (omega : ℚ)
  | warmUp
  | collideAndStream

/-- The result of a run of palabos_minimal.cpp: the sequence of external
library calls it issued and the value `main` returned. -/
structure PlbRun where
  trace : List PlbEvent
  exitCode : Nat

/-- `int main(int argc, char* argv[])` of palabos_minimal.cpp, as the trace
of library calls it performs: `plbInit` on the unmodified argv, one lattice
construction with the compile-time constants, one warm-up call (the C++
`lattice.initialize()`), then the `for` loop issuing `iterations`
collide-and-stream steps, then `return 0`. -/
def main (argv : List String) : PlbRun :=
  { trace := PlbEvent.plbInit argv ::
      PlbEvent.constructLattice nx ny nz omega ::
      PlbEvent.warmUp ::
      List.replicate iterations PlbEvent.collideAndStream
    exitCode := 0 }

end Palabos

/-! ### Helper lemmas -/

/-- Folding `+` from `init` over a list of rationals adds the list sum. -/
theorem foldl_add_eq_sum (init : ℚ) (l : List ℚ) :
    List.foldl (· + ·) init l = init + l.sum := by
  induction l generalizing init with
  | nil => simp
  | cons a t ih => rw [List.foldl_cons, ih, List.sum_cons]; ring

/-! ### Claims -/

/-- C1: for the fixed input — a buffer of 100,000,000 values each
initialized to 1.0 — doubling every element and then reducing with initial
value 0.0 yields exactly 200,000,000 (exact arithmetic; the claim's
floating-point tolerance covers rounding), and the program's exit code
is 0. -/
theorem stdpar_sum_and_exit :
    Stdpar.initialData = List.replicate 100000000 1 ∧
    Stdpar.stdparSum = 200000000 ∧
    Stdpar.stdparMainExit = 0 := by
  have hsum : Stdpar.stdparSum = 200000000 := by
    unfold Stdpar.stdparSum Stdpar.reduceStep Stdpar.reducePar
      Stdpar.bufferAfterTransform Stdpar.transformPar Stdpar.initialData
      Stdpar.doubleElem Stdpar.kSize
    rw [foldl_add_eq_sum, List.map_replicate, List.sum_replicate]
    norm_num
  refine ⟨rfl, hsum, ?_⟩
  unfold Stdpar.stdparMainExit Stdpar.stdparExitCode
  rw [hsum]
  norm_num

/-- C2: the exit code is exactly a function of the sign of the reduced
sum — it is 0 iff the sum is strictly positive, 1 iff it is not, and 0 and
1 are the only two possible exit codes. -/
theorem stdpar_exit_code_sign (s : ℚ) :
    (Stdpar.stdparExitCode s = 0 ↔ 0 < s) ∧
    (Stdpar.stdparExitCode s = 1 ↔ ¬ 0 < s) ∧
    (Stdpar.stdparExitCode s = 0 ∨ Stdpar.stdparExitCode s = 1) := by
  unfold Stdpar.stdparExitCode
  split_ifs with h <;> simp [h]

/-- C3: for every buffer and every index, the post-transform element at
that index is exactly 2.0 times the pre-transform element at that index (a
pure function of the corresponding input element only), and the transform
leaves the buffer's length unchanged. -/
theorem stdpar_transform_pointwise (l : List ℚ) (i : Nat) :
    (Stdpar.transformPar l).length = l.length ∧
    (Stdpar.transformPar l)[i]? = l[i]?.map (fun x => 2 * x) := by
  unfold Stdpar.transformPar
  refine ⟨List.length_map l Stdpar.doubleElem, ?_⟩
  rw [List.getElem?_map]
  cases l[i]? with
  | none => rfl
  | some x => simp [Stdpar.doubleElem, mul_comm]

/-- C4: the dependency-check printer exits 0 in every environment, its
output is the fixed list of confirmation lines in the fixed order of the
source, and each of those lines occurs exactly once in the output. -/
theorem test_project_output (env : TestProject.Environment) :
    (TestProject.run env).2 = 0 ∧
    (TestProject.run env).1 = TestProject.outputLines ∧
    ∀ s, s ∈ TestProject.outputLines →
      (TestProject.run env).1.count s = 1 := by
  refine ⟨rfl, rfl, ?_⟩
  intro s hs
  show TestProject.outputLines.count s = 1
  fin_cases hs <;> rfl

/-- C4 witness: the theorem applied to a concrete environment and a
concrete output line. -/
theorem test_project_output_witness :
    (TestProject.run ⟨true, true, true, true⟩).1.count
      "✅ CUDA toolkit available" = 1 :=
  (test_project_output ⟨true, true, true, true⟩).2.2
    "✅ CUDA toolkit available" (by simp [TestProject.outputLines])

/-- C5: the dependency-check printer verifies nothing — its output and
exit code are identical in any two environments, whatever the availability
of the libraries it names, and the exit code is always 0. -/
theorem test_project_no_verification
    (e₁ e₂ : TestProject.Environment) :
    TestProject.run e₁ = TestProject.run e₂ ∧
    (TestProject.run e₁).2 = 0 :=
  ⟨rfl, rfl⟩

/-- C6: the lattice test's inputs are the compile-time constants 100×100×100
for the lattice, relaxation parameter 1.0, and 100 iterations; for every
argv the lattice-construction call carries exactly those constants, the run
returns no simulation result (its result type carries only a trace and an
exit code) and exit code is 0. -/
theorem palabos_constants (argv : List String) :
    Palabos.nx = 100 ∧ Palabos.ny = 100 ∧ Palabos.nz = 100 ∧
    Palabos.omega = 1 ∧ Palabos.iterations = 100 ∧
    (Palabos.main argv).trace[1]? =
      some (Palabos.PlbEvent.constructLattice 100 100 100 1) ∧
    (Palabos.main argv).exitCode = 0 :=
  ⟨rfl, rfl, rfl, rfl, rfl, rfl, rfl⟩

/-- C7: the lattice test terminates, performing its steps in the fixed
order — library init, lattice construction, exactly one warm-up
(`lattice.initialize()`), then exactly 100 collide-and-stream steps — and
returns exit code 0; its call trace is finite of length 103. -/
theorem palabos_trace_order (argv : List String) :
    (Palabos.main argv).trace =
      Palabos.PlbEvent.plbInit argv ::
      Palabos.PlbEvent.constructLattice 100 100 100 1 ::
      Palabos.PlbEvent.warmUp ::
      List.replicate 100 Palabos.PlbEvent.collideAndStream ∧
    (Palabos.main argv).trace.length = 103 ∧
    (Palabos.main argv).exitCode = 0 := by
  refine ⟨rfl, ?_, rfl⟩
  show (Palabos.PlbEvent.plbInit argv ::
      Palabos.PlbEvent.constructLattice 100 100 100 1 ::
      Palabos.PlbEvent.warmUp ::
      List.replicate 100 Palabos.PlbEvent.collideAndStream).length = 103
  simp

/-- C8: the nominal path of the parallel-algorithms test is deterministic —
any two runs, i.e. any two reduction orders over the doubled buffer (the
parallel policy may reduce the elements in any order; `+` on the exact
values is associative and commutative), produce the same reduced sum and
hence the same exit code. -/
theorem stdpar_deterministic (l₁ l₂ : List ℚ)
    (h₁ : List.Perm l₁ Stdpar.bufferAfterTransform)
    (h₂ : List.Perm l₂ Stdpar.bufferAfterTransform) :
    Stdpar.reducePar 0 l₁ = Stdpar.reducePar 0 l₂ ∧
    Stdpar.stdparExitCode (Stdpar.reducePar 0 l₁) =
      Stdpar.stdparExitCode (Stdpar.reducePar 0 l₂) := by
  have hsum : Stdpar.reducePar 0 l₁ = Stdpar.reducePar 0 l₂ := by
    unfold Stdpar.reducePar
    rw [foldl_add_eq_sum, foldl_add_eq_sum, h₁.sum_eq, h₂.sum_eq]
  exact ⟨hsum, by rw [hsum]⟩

/-- C8 witness: the theorem applied to the program's own reduction order on
both sides, the permutation hypotheses discharged by reflexivity of
`List.Perm`. -/
theorem stdpar_deterministic_witness :
    Stdpar.reducePar 0 Stdpar.bufferAfterTransform =
      Stdpar.reducePar 0 Stdpar.bufferAfterTransform ∧
    Stdpar.stdparExitCode (Stdpar.reducePar 0 Stdpar.bufferAfterTransform) =
      Stdpar.stdparExitCode (Stdpar.reducePar 0 Stdpar.bufferAfterTransform) :=
  stdpar_deterministic Stdpar.bufferAfterTransform Stdpar.bufferAfterTransform
    (List.Perm.refl Stdpar.bufferAfterTransform)
    (List.Perm.refl Stdpar.bufferAfterTransform)

/-- C9: the lattice test defines no flags of its own — the first event of
every run is the library init call receiving argv unmodified, and
everything after it (construction constants, warm-up, iteration count,
exit code) is identical for any two argv values. -/
theorem palabos_argv_passthrough (a₁ a₂ : List String) :
    (Palabos.main a₁).trace.head? = some (Palabos.PlbEvent.plbInit a₁) ∧
    (Palabos.main a₁).trace.tail = (Palabos.main a₂).trace.tail ∧
    (Palabos.main a₁).exitCode = (Palabos.main a₂).exitCode :=
  ⟨rfl, rfl, rfl⟩

/-- C10: the parallel reduction does not modify the buffer — at every index
the element after the reduce equals its post-transform value (stated via
the total indexing function, so it also covers out-of-range indices), and
the buffer's length after the reduce is still 100,000,000. -/
theorem stdpar_reduce_frame (i : Nat) :
    Stdpar.bufferAfterReduce[i]? = Stdpar.bufferAfterTransform[i]? ∧
    Stdpar.bufferAfterReduce.length = 100000000 := by
  refine ⟨rfl, ?_⟩
  show (Stdpar.transformPar Stdpar.initialData).length = 100000000
  unfold Stdpar.transformPar Stdpar.initialData
  rw [List.length_map, List.length_replicate]
  rfl

end CoralMachine
